import Mathlib

/-!
Shallow embedding of `src/src/cmd.c` from vladhsu/cshell: the execution
engine of a small command-line shell.

Modelling conventions:
- A word (`word_t`) is modelled by the single string it resolves to;
  `get_word` (external utils module) resolves a word to one string which
  the executor treats as a plain value, so the resolved string stands for
  the word everywhere.
- The process state the claims depend on (the environment-variable table
  mutated by `setenv`, and the list of attempted `chdir` calls) is threaded
  explicitly through every evaluation function.
- The operating system is an explicit oracle (`OS`): the outcome of a
  `chdir` call and the exit code of an executed external program.
- Children forked by `run_in_parallel` / `run_on_pipe` / the external
  branch of `parse_simple` receive a copy-on-fork snapshot of the state,
  and their state changes are invisible to the parent; only the exit
  status (the low 8 bits of the integer passed to `exit`, as observed
  through `WEXITSTATUS`) comes back.
- File descriptors are modelled separately (`FDState`) for
  `solve_redirection`: each successful `open` creates a fresh open file
  description (its own file offset), `dup2` makes a standard descriptor
  refer to an existing description.  A failed `open` is fatal (`DIE`) and
  terminates the process, so the model only covers the successful runs.
-/

/-- Exit code of a terminated child as observed through `WEXITSTATUS`:
the low 8 bits of the integer the child passed to `exit` (two's
complement, hence the Euclidean remainder). -/
def wexitstatus (r : Int) : Nat := (r % 256).toNat

/-- Implicit C conversion from `bool` to `int` (`true ↦ 1`, `false ↦ 0`);
`parse_command` applies it when it returns the `bool` produced by
`run_on_pipe` or `run_in_parallel` from an `int` function. -/
def bool_to_int (b : Bool) : Int := if b then 1 else 0

/-- Modelled from the spec: `SHELL_EXIT` (the spec's EXIT_SENTINEL) is
defined in `cmd.h`, which is not under `src/`.  The spec requires it to
be out-of-band: "distinct from any 0–255 process exit status", and per
the spec's error-handling design distinct from the ordinary failure
returns of the built-ins (a malformed assignment must keep the shell
running).  We fix the concrete value `-100`. -/
def SHELL_EXIT : Int := -100

/-- Mirror of `shell_exit` in cmd.c: returns `SHELL_EXIT`. -/
def shell_exit : Int := SHELL_EXIT

/-- The operator tag of a command node (`op_t` from cmd.h, modelled from
the spec's operator list).  `OP_DUMMY` stands for the unrecognized
operators that fall into the `default` branch of `parse_command`. -/
inductive op_t where
  | OP_NONE
  | OP_SEQUENTIAL
  | OP_PARALLEL
  | OP_CONDITIONAL_NZERO
  | OP_CONDITIONAL_ZERO
  | OP_PIPE
  | OP_DUMMY
deriving DecidableEq, Repr

/-- Modelled from the spec: the `io_flags` bit requesting append mode for
the output stream (`cmd.h` is not under `src/`; the spec says each output
target carries an independent append-vs-truncate flag). -/
def IO_OUT_APPEND : Nat := 1

/-- Modelled from the spec: the `io_flags` bit requesting append mode for
the error stream. -/
def IO_ERR_APPEND : Nat := 2

/-- A simple command (`simple_command_t`): the verb (whose `string` field
may be NULL, hence `Option`), the parameter words, the optional
input/output/error redirection paths, and the append flags.  A word is
modelled by its resolved string. -/
structure simple_command_t where
  verb : Option String
  params : List String
  in_ : Option String
  out : Option String
  err : Option String
  io_flags : Nat
deriving DecidableEq, Repr

/-- A command tree (`command_t`).  The `null` constructor models a NULL
`command_t` pointer (`parse_command` treats it as a no-op); `mk` carries
the operator tag, the two sub-trees and the simple command of a leaf. -/
inductive command_t where
  | null : command_t
  | mk : op_t → command_t → command_t → Option simple_command_t → command_t
deriving DecidableEq, Repr

/-- The per-process mutable state the claims depend on: the environment
variable table (mutated in place by `setenv`) and the trace of attempted
`chdir` calls (so "never attempts a directory change" is observable). -/
structure ShellState where
  env : List (String × String)
  chdirCalls : List String
deriving DecidableEq, Repr

/-- The operating-system oracle: the outcome of a `chdir` call on a path,
and the behaviour of `execvp` on a verb and parameter list (`none` when
the exec fails, e.g. command not found; `some c` when the program runs
and terminates with raw status `c`). -/
structure OS where
  chdir : String → Bool
  exec : String → List String → Option Nat

/-- `setenv name value 1` (overwrite semantics): replace the binding of
`name` if present, otherwise add it. -/
def envSet (n v : String) : List (String × String) → List (String × String)
  | [] => [(n, v)]
  | p :: rest => if p.fst = n then (n, v) :: rest else p :: envSet n v rest

/-- Lookup of an environment variable (`getenv`). -/
def envGet (n : String) : List (String × String) → Option String
  | [] => none
  | p :: rest => if p.fst = n then some p.snd else envGet n rest

/-- Helper of `strtok`: skip the leading run of `'='` delimiters, as
`strtok_r` does before extracting a token. -/
def strtok_skip : List Char → List Char
  | [] => []
  | c :: cs => if c = '=' then strtok_skip cs else c :: cs

/-- Helper of `strtok`: read characters up to the next `'='` delimiter
(or the end); returns the token and the remainder after the consumed
delimiter, as `strtok_r` leaves its save pointer. -/
def strtok_take : List Char → List Char × List Char
  | [] => ([], [])
  | c :: cs =>
    if c = '=' then ([], cs)
    else
      let p := strtok_take cs
      (c :: p.fst, p.snd)

/-- One `strtok_r(·, "=", ·)` step: skip leading `'='` delimiters; if
nothing is left there is no token (`NULL`); otherwise return the maximal
`'='`-free token and the rest of the input after it. -/
def strtok (cs : List Char) : Option (List Char × List Char) :=
  match strtok_skip cs with
  | [] => none
  | c :: cs2 => some (strtok_take (c :: cs2))

/-- The `'='`-delimited tokens of a verb, stated declaratively for the
amended assignment claim: split the character list on `'='` and keep
the nonempty pieces — the maximal nonempty `'='`-free substrings, in
order.  `strtok_tokens` proves that the two `strtok_r` calls of the
assignment branch read exactly the first two of these tokens. -/
def eqTokens (cs : List Char) : List (List Char) :=
  (cs.splitOn '=').filter (fun t => !t.isEmpty)

/-- Mirror of `shell_cd` in cmd.c: a NULL argument list succeeds; more
than one argument fails without calling `chdir`; exactly one argument
calls `chdir` and succeeds iff the OS call does.  The attempted call is
recorded in the `chdirCalls` trace. -/
def shell_cd (os : OS) (dir : List String) (st : ShellState) :
    Bool × ShellState :=
  match dir with
  | [] => (true, st)
  | d :: rest =>
    match rest with
    | _ :: _ => (false, st)
    | [] => (os.chdir d, { st with chdirCalls := st.chdirCalls ++ [d] })

/-- Mirror of `parse_simple` in cmd.c.  A NULL command or a NULL verb
string returns `-1`.  The `cd` branch applies and reverts redirection
around `shell_cd` (a net no-op on descriptors, hence not threaded here)
and returns 0/1 from its boolean.  `exit`/`quit` return `SHELL_EXIT`.
A verb containing `'='` is an assignment: two `strtok_r` calls on `"="`
extract name and value; if both exist, `setenv(name, value, 1)` runs
(modelled as always succeeding, returning 0, since the extracted name is
nonempty and `'='`-free) and its result is returned; otherwise `-1`.
Anything else forks; the child applies redirection and calls `execvp`
(exiting with `EXIT_FAILURE = 1` if the exec fails); the parent returns
`WEXITSTATUS` of the child's status.  The child's state changes are
discarded by process isolation. -/
def parse_simple (os : OS) (s : Option simple_command_t) (st : ShellState) :
    Int × ShellState :=
  match s with
  | none => (-1, st)
  | some sc =>
    match sc.verb with
    | none => (-1, st)
    | some cmd =>
      if cmd = "cd" then
        let r := shell_cd os sc.params st
        ((if r.fst then 0 else 1 : Int), r.snd)
      else if cmd = "exit" ∨ cmd = "quit" then
        (shell_exit, st)
      else if '=' ∈ cmd.data then
        match strtok cmd.data with
        | none => (-1, st)
        | some nm =>
          match strtok nm.snd with
          | none => (-1, st)
          | some vl =>
            (0, { st with env := envSet (String.mk nm.fst) (String.mk vl.fst) st.env })
      else
        let code : Nat :=
          match os.exec cmd sc.params with
          | some c => c
          | none => 1
        (((code % 256 : Nat) : Int), st)

/-- Mirror of `parse_command` in cmd.c, the tree interpreter.  A NULL
tree returns 0.  `OP_NONE` delegates to `parse_simple`.  `OP_SEQUENTIAL`
evaluates the left tree, discards its value, and returns the right
tree's result.  The conditional operators evaluate the left tree and
either return the right tree's result or `0`.  `OP_PARALLEL` and
`OP_PIPE` fork two children, each of which exits with its sub-tree's
result evaluated on a copy-on-fork snapshot of the state; the parent
returns the C bool "both `WEXITSTATUS` are zero" converted to `int`
(the comparison order matches the C source).  Unrecognized operators
return `SHELL_EXIT`. -/
def parse_command (os : OS) : command_t → ShellState → Int × ShellState
  | .null, st => (0, st)
  | .mk op c1 c2 sc, st =>
    match op with
    | .OP_NONE => parse_simple os sc st
    | .OP_SEQUENTIAL =>
      parse_command os c2 (parse_command os c1 st).snd
    | .OP_PARALLEL =>
      (bool_to_int ((wexitstatus (parse_command os c2 st).fst == 0)
        && (wexitstatus (parse_command os c1 st).fst == 0)), st)
    | .OP_CONDITIONAL_NZERO =>
      if (parse_command os c1 st).fst ≠ 0 then
        parse_command os c2 (parse_command os c1 st).snd
      else
        (0, (parse_command os c1 st).snd)
    | .OP_CONDITIONAL_ZERO =>
      if (parse_command os c1 st).fst = 0 then
        parse_command os c2 (parse_command os c1 st).snd
      else
        (0, (parse_command os c1 st).snd)
    | .OP_PIPE =>
      (bool_to_int ((wexitstatus (parse_command os c1 st).fst == 0)
        && (wexitstatus (parse_command os c2 st).fst == 0)), st)
    | .OP_DUMMY => (SHELL_EXIT, st)

/-- Mirror of `run_in_parallel` in cmd.c: two children are forked, each
exits with its sub-tree's interpretation result on a snapshot of the
parent state; the result is the C bool comparing both `WEXITSTATUS`
values with zero (second child first, as in the source). -/
def run_in_parallel (os : OS) (cmd1 cmd2 : command_t) (st : ShellState) :
    Bool :=
  (wexitstatus (parse_command os cmd2 st).fst == 0)
    && (wexitstatus (parse_command os cmd1 st).fst == 0)

/-- Mirror of `run_on_pipe` in cmd.c: as `run_in_parallel` but the
children share an anonymous pipe (left's stdout feeds right's stdin;
byte traffic is outside this model); the result is the C bool comparing
both `WEXITSTATUS` values with zero. -/
def run_on_pipe (os : OS) (cmd1 cmd2 : command_t) (st : ShellState) :
    Bool :=
  (wexitstatus (parse_command os cmd1 st).fst == 0)
    && (wexitstatus (parse_command os cmd2 st).fst == 0)

/-- An open file description created by `open`: the path it was opened
on and whether append mode was requested.  Each description has its own
file offset, so two descriptions are two independent offsets. -/
structure OpenDesc where
  path : String
  append : Bool
deriving DecidableEq, Repr

/-- The descriptor state of the current process: a fresh-id counter and
table for open file descriptions, and the descriptions the three
standard descriptors currently refer to. -/
structure FDState where
  nextDesc : Nat
  table : List (Nat × OpenDesc)
  fd0 : Nat
  fd1 : Nat
  fd2 : Nat
deriving DecidableEq, Repr

/-- A successful `open`: allocates a fresh open file description for the
path.  (`open` failure is fatal in cmd.c — `DIE` — so only successful
runs are modelled.) -/
def fdOpen (p : String) (app : Bool) (st : FDState) : Nat × FDState :=
  (st.nextDesc,
    { st with
      nextDesc := st.nextDesc + 1
      table := st.table ++ [(st.nextDesc, ⟨p, app⟩)] })

/-- Mirror of `solve_redirection` in cmd.c: open-and-`dup2` the input,
output and error targets in that order (create-if-missing, truncate by
default, append when the corresponding `io_flags` bit is set); finally,
if both an output and an error path are present and the two path strings
are equal (`strcmp`), `dup2(STDOUT_FILENO, STDERR_FILENO)` makes the
error descriptor an alias of the already-redirected output
description. -/
def solve_redirection (s : simple_command_t) (st : FDState) : FDState :=
  let st1 :=
    match s.in_ with
    | some p =>
      let r := fdOpen p false st
      { r.snd with fd0 := r.fst }
    | none => st
  let st2 :=
    match s.out with
    | some p =>
      let r := fdOpen p ((s.io_flags &&& IO_OUT_APPEND) != 0) st1
      { r.snd with fd1 := r.fst }
    | none => st1
  let st3 :=
    match s.err with
    | some p =>
      let r := fdOpen p ((s.io_flags &&& IO_ERR_APPEND) != 0) st2
      { r.snd with fd2 := r.fst }
    | none => st2
  match s.out, s.err with
  | some po, some pe => if po = pe then { st3 with fd2 := st3.fd1 } else st3
  | _, _ => st3

/-- The result set the spec claims for the Simple Command Executor:
an exit status in 0–255, or the EXIT_SENTINEL.  (Stated from the spec's
words, to be compared with what `parse_simple` actually returns.) -/
def spec_status_set (v : Int) : Prop := (0 ≤ v ∧ v ≤ 255) ∨ v = SHELL_EXIT

/-- A concrete oracle on which every external command succeeds with
status 0 and every `chdir` succeeds. -/
def os0 : OS := { chdir := fun _ => true, exec := fun _ _ => some 0 }

/-- A concrete oracle on which the program `false` exits with status 1
and every other external command exits with status 0. -/
def os1 : OS :=
  { chdir := fun _ => true
    exec := fun v _ => if v = "false" then some 1 else some 0 }

/-- A concrete starting state: empty environment, no chdir calls. -/
def st0 : ShellState := { env := [], chdirCalls := [] }

/-- Leaf node running the external command `true`. -/
def trueLeaf : command_t :=
  .mk .OP_NONE .null .null (some ⟨some "true", [], none, none, none, 0⟩)

/-- Leaf node running the external command `false`. -/
def falseLeaf : command_t :=
  .mk .OP_NONE .null .null (some ⟨some "false", [], none, none, none, 0⟩)

/-- Leaf node running the built-in `exit`. -/
def exitLeaf : command_t :=
  .mk .OP_NONE .null .null (some ⟨some "exit", [], none, none, none, 0⟩)

/-- Simple command whose verb is the assignment `A=B=C`. -/
def asg6 : simple_command_t := ⟨some "A=B=C", [], none, none, none, 0⟩

/-- Simple command whose verb `=A=B` starts with a delimiter: the
assignment branch skips the leading `'='` run. -/
def asgSkip : simple_command_t := ⟨some "=A=B", [], none, none, none, 0⟩

/-- Simple command redirecting both output and error to the same path
string `f`. -/
def scSamePath : simple_command_t := ⟨some "v", [], none, some "f", some "f", 0⟩

/-- A concrete descriptor state: descriptions 0/1/2 stand for the
inherited terminal streams. -/
def fdSt0 : FDState :=
  { nextDesc := 3
    table := [(0, ⟨"tty", false⟩), (1, ⟨"tty", false⟩), (2, ⟨"tty", false⟩)]
    fd0 := 0
    fd1 := 1
    fd2 := 2 }

/-- `strtok_take` on a list without the delimiter consumes it whole. -/
theorem strtok_take_nodelim (a : List Char) (h : '=' ∉ a) :
    strtok_take a = (a, []) := by
  induction a with
  | nil => rfl
  | cons c cs ih =>
    rw [List.mem_cons] at h
    push_neg at h
    have hc : ¬c = '=' := fun e => h.1 e.symm
    simp [strtok_take, hc, ih h.2]

/-- `strtok_take` stops at the first delimiter and consumes it. -/
theorem strtok_take_append (a b : List Char) (h : '=' ∉ a) :
    strtok_take (a ++ '=' :: b) = (a, b) := by
  induction a with
  | nil => simp [strtok_take]
  | cons c cs ih =>
    rw [List.mem_cons] at h
    push_neg at h
    have hc : ¬c = '=' := fun e => h.1 e.symm
    simp [strtok_take, hc, ih h.2]

/-- An empty verb has no tokens. -/
theorem eqTokens_nil : eqTokens [] = [] := by
  simp [eqTokens, List.splitOn_nil]

/-- The head of `strtok_skip`'s output is never the delimiter. -/
theorem strtok_skip_head (c : Char) (cs2 : List Char) :
    ∀ cs, strtok_skip cs = c :: cs2 → c ≠ '=' := by
  intro cs
  induction cs with
  | nil => intro h; exact absurd h (by simp [strtok_skip])
  | cons d ds ih =>
    intro h
    rw [strtok_skip] at h
    by_cases hd : d = '='
    · rw [if_pos hd] at h
      exact ih h
    · rw [if_neg hd] at h
      injection h with h1 h2
      subst h1
      exact hd

/-- A list containing the delimiter splits at its first occurrence:
a delimiter-free prefix, the delimiter, and the remainder. -/
theorem first_delim_split (cs : List Char) (h : '=' ∈ cs) :
    ∃ a b, cs = a ++ '=' :: b ∧ '=' ∉ a := by
  induction cs with
  | nil => cases h
  | cons c cs ih =>
    by_cases hc : c = '='
    · exact ⟨[], cs, by rw [hc]; rfl, by simp⟩
    · have h2 : '=' ∈ cs := by
        rcases List.mem_cons.1 h with h1 | h1
        · exact absurd h1.symm hc
        · exact h1
      rcases ih h2 with ⟨a, b, hab, hna⟩
      refine ⟨c :: a, b, ?_, ?_⟩
      · rw [List.cons_append, ← hab]
      · rw [List.mem_cons]
        push_neg
        exact ⟨fun e => hc e.symm, hna⟩

/-- A leading delimiter contributes no token. -/
theorem eqTokens_delim_cons (cs : List Char) :
    eqTokens ('=' :: cs) = eqTokens cs := by
  simp [eqTokens, List.splitOn, List.splitOnP_cons]

/-- Skipping the leading delimiter run preserves the token list. -/
theorem eqTokens_skip (cs : List Char) :
    eqTokens (strtok_skip cs) = eqTokens cs := by
  induction cs with
  | nil => rfl
  | cons c cs ih =>
    rw [strtok_skip]
    by_cases hc : c = '='
    · subst hc
      rw [if_pos rfl, ih, eqTokens_delim_cons]
    · rw [if_neg hc]

/-- Each `strtok` step reads exactly the head of the declarative token
list: no token is returned iff the list is empty, and a returned token
is the list's head with the remainder carrying precisely the later
tokens. -/
theorem strtok_tokens (cs : List Char) :
    (strtok cs = none → eqTokens cs = [])
    ∧ (∀ t r, strtok cs = some (t, r) → eqTokens cs = t :: eqTokens r) := by
  constructor
  · intro h
    rw [strtok] at h
    rcases hs : strtok_skip cs with _ | ⟨c, cs2⟩
    · rw [← eqTokens_skip cs, hs, eqTokens_nil]
    · rw [hs] at h
      simp at h
  · intro t r h
    rw [strtok] at h
    rcases hs : strtok_skip cs with _ | ⟨c, cs2⟩
    · rw [hs] at h
      simp at h
    · rw [hs] at h
      have hc : c ≠ '=' := strtok_skip_head c cs2 cs hs
      injection h with h2
      rw [← eqTokens_skip cs, hs]
      by_cases hm : '=' ∈ (c :: cs2)
      · rcases first_delim_split (c :: cs2) hm with ⟨a, b, hab, hna⟩
        have ha : a ≠ [] := by
          intro e
          subst e
          rw [List.nil_append] at hab
          injection hab with h3 h4
          exact hc h3
        rw [hab, strtok_take_append a b hna] at h2
        simp only [Prod.mk.injEq] at h2
        obtain ⟨rfl, rfl⟩ := h2
        have hsp : (a ++ '=' :: b).splitOn '=' = a :: b.splitOn '=' := by
          simp only [List.splitOn]
          exact List.splitOnP_first (fun x => x == '=') a
            (fun x hx e => hna ((eq_of_beq e) ▸ hx)) '=' (by simp) b
        rw [hab]
        simp only [eqTokens, hsp, List.filter_cons]
        rcases a with _ | ⟨a0, a1⟩
        · exact absurd rfl ha
        · simp
      · rw [strtok_take_nodelim (c :: cs2) hm] at h2
        simp only [Prod.mk.injEq] at h2
        obtain ⟨rfl, rfl⟩ := h2
        have hsp : (c :: cs2).splitOn '=' = [c :: cs2] := by
          simp only [List.splitOn]
          exact List.splitOnP_eq_single (fun x => x == '=') (c :: cs2)
            (fun x hx e => hm ((eq_of_beq e) ▸ hx))
        simp [eqTokens, hsp]

/-- The PIPE branch of the tree interpreter is exactly the Pipeline
Executor's boolean put through the C bool-to-int conversion. -/
theorem parse_command_pipe (os : OS) (l r : command_t)
    (sc : Option simple_command_t) (st : ShellState) :
    parse_command os (.mk .OP_PIPE l r sc) st
      = (bool_to_int (run_on_pipe os l r st), st) := rfl

/-- The PARALLEL branch of the tree interpreter is exactly the Parallel
Executor's boolean put through the C bool-to-int conversion. -/
theorem parse_command_parallel (os : OS) (l r : command_t)
    (sc : Option simple_command_t) (st : ShellState) :
    parse_command os (.mk .OP_PARALLEL l r sc) st
      = (bool_to_int (run_in_parallel os l r st), st) := rfl

/-- C1: the claim says a PIPE node yields overall status 0 iff both
children exit 0, and nonzero if either child fails.  The code does the
opposite: `parse_command` returns `run_on_pipe`'s C bool converted to
int, so both-children-exit-0 yields status 1 (nonzero) and a failing
child yields status 0.  This theorem evaluates the embedding at the
failing input: on `os1` the command `true` exits 0 and `false` exits 1;
`PIPE(true, true)` returns 1 and `PIPE(true, false)` returns 0. -/
theorem c1_pipe_status_inverted :
    wexitstatus (parse_command os1 trueLeaf st0).fst = 0
    ∧ wexitstatus (parse_command os1 falseLeaf st0).fst = 1
    ∧ parse_command os1 (.mk .OP_PIPE trueLeaf trueLeaf none) st0 = (1, st0)
    ∧ parse_command os1 (.mk .OP_PIPE trueLeaf falseLeaf none) st0 = (0, st0) := by
  decide

/-- C2: the claim says a PARALLEL node yields a zero status iff both
children exit 0.  As for PIPE, the code returns `run_in_parallel`'s C
bool converted to int: both-children-exit-0 yields status 1 (nonzero)
and a failing child yields status 0.  Evaluated at the failing input on
`os1` (`true` exits 0, `false` exits 1): `PARALLEL(true, true)` returns
1 and `PARALLEL(false, true)` returns 0. -/
theorem c2_parallel_status_inverted :
    wexitstatus (parse_command os1 trueLeaf st0).fst = 0
    ∧ wexitstatus (parse_command os1 falseLeaf st0).fst = 1
    ∧ parse_command os1 (.mk .OP_PARALLEL trueLeaf trueLeaf none) st0 = (1, st0)
    ∧ parse_command os1 (.mk .OP_PARALLEL falseLeaf trueLeaf none) st0 = (0, st0) := by
  decide

/-- C3 counterexample: an `exit` leaf evaluates to `SHELL_EXIT`, yet a
SEQUENTIAL node with that leaf on the left returns the right sub-tree's
status 0, not `SHELL_EXIT` — the sentinel does not propagate up from
the left of a SEQUENTIAL node as the claim requires. -/
theorem c3_counterexample :
    parse_command os0 exitLeaf st0 = (SHELL_EXIT, st0)
    ∧ parse_command os0 (.mk .OP_SEQUENTIAL exitLeaf trueLeaf none) st0 = (0, st0)
    ∧ (0 : Int) ≠ SHELL_EXIT := by decide

/-- C3 amended: `SHELL_EXIT` propagates only through the position whose
result a node returns.  A SEQUENTIAL node returns `SHELL_EXIT` iff its
right sub-tree's evaluation (in the state left by the left sub-tree)
yields it — the left sub-tree's result, sentinel included, is
discarded.  A COND_IF_NONZERO node returns it iff the left result is
nonzero and the evaluated right branch yields it; a COND_IF_ZERO node
iff the left result is zero and the evaluated right branch yields it
(the untaken branches return the literal 0, never the sentinel). -/
theorem c3_sentinel_propagation (os : OS) (l r : command_t)
    (sc : Option simple_command_t) (st : ShellState) :
    ((parse_command os (.mk .OP_SEQUENTIAL l r sc) st).fst = SHELL_EXIT ↔
        (parse_command os r (parse_command os l st).snd).fst = SHELL_EXIT)
    ∧ ((parse_command os (.mk .OP_CONDITIONAL_NZERO l r sc) st).fst = SHELL_EXIT ↔
        (parse_command os l st).fst ≠ 0 ∧
          (parse_command os r (parse_command os l st).snd).fst = SHELL_EXIT)
    ∧ ((parse_command os (.mk .OP_CONDITIONAL_ZERO l r sc) st).fst = SHELL_EXIT ↔
        (parse_command os l st).fst = 0 ∧
          (parse_command os r (parse_command os l st).snd).fst = SHELL_EXIT) := by
  have hnz : parse_command os (.mk .OP_CONDITIONAL_NZERO l r sc) st
      = if (parse_command os l st).fst ≠ 0 then
          parse_command os r (parse_command os l st).snd
        else (0, (parse_command os l st).snd) := rfl
  have hz : parse_command os (.mk .OP_CONDITIONAL_ZERO l r sc) st
      = if (parse_command os l st).fst = 0 then
          parse_command os r (parse_command os l st).snd
        else (0, (parse_command os l st).snd) := rfl
  refine ⟨Iff.rfl, ?_, ?_⟩
  · rw [hnz]
    by_cases h : (parse_command os l st).fst = 0
    · simp [h, SHELL_EXIT]
    · simp [h]
  · rw [hz]
    by_cases h : (parse_command os l st).fst = 0
    · simp [h]
    · simp [h, SHELL_EXIT]

/-- C4: a COND_IF_ZERO node evaluates the left sub-tree; if the left
result is 0 it evaluates the right sub-tree (in the state the left
evaluation produced) and returns its result; otherwise the right
sub-tree is never evaluated — the result `(0, ...)` does not depend on
`r` and the state carries only the left evaluation's effects — and the
overall result is 0 (success) even though the left failed. -/
theorem c4_cond_if_zero (os : OS) (l r : command_t)
    (sc : Option simple_command_t) (st : ShellState) :
    parse_command os (.mk .OP_CONDITIONAL_ZERO l r sc) st
      = if (parse_command os l st).fst = 0 then
          parse_command os r (parse_command os l st).snd
        else (0, (parse_command os l st).snd) := rfl

/-- C5 amended: the Simple Command Executor returns `SHELL_EXIT`, the
error value `-1`, or an exit status in 0–255.  The `-1` returns (NULL
command, NULL verb string, malformed assignment, failed `setenv`)
are outside the set the claim states. -/
theorem c5_status_range (os : OS) (s : Option simple_command_t) (st : ShellState) :
    (parse_simple os s st).fst = SHELL_EXIT ∨ (parse_simple os s st).fst = -1
    ∨ (0 ≤ (parse_simple os s st).fst ∧ (parse_simple os s st).fst ≤ 255) := by
  cases s with
  | none => simp [parse_simple]
  | some sc =>
    cases hv : sc.verb with
    | none => simp [parse_simple, hv]
    | some cmd =>
      by_cases h1 : cmd = "cd"
      · simp only [parse_simple, hv, if_pos h1]
        cases (shell_cd os sc.params st).fst <;> simp
      · by_cases h2 : cmd = "exit" ∨ cmd = "quit"
        · simp [parse_simple, hv, h1, h2, shell_exit]
        · by_cases h3 : '=' ∈ cmd.data
          · simp only [parse_simple, hv, if_neg h1, if_neg h2, if_pos h3]
            rcases ha : strtok cmd.data with _ | nm
            · simp
            · rcases hb : strtok nm.snd with _ | vl <;> simp [hb]
          · simp only [parse_simple, hv, if_neg h1, if_neg h2, if_neg h3]
            right; right
            refine ⟨Int.ofNat_nonneg _, ?_⟩
            have : (match os.exec cmd sc.params with
                | some c => c
                | none => 1) % 256 < 256 := Nat.mod_lt _ (by omega)
            omega

/-- C5 counterexample: a NULL command makes `parse_simple` return `-1`,
which is neither an exit status in 0–255 nor the `SHELL_EXIT`
sentinel, so the returned value is outside the set the claim states. -/
theorem c5_counterexample :
    ¬ spec_status_set (parse_simple os0 none st0).fst := by
  unfold spec_status_set
  decide

/-- C6 amended: for every simple command whose verb contains `'='`,
the assignment branch tokenizes the verb exactly as `strtok_r` does:
the tokens are the maximal nonempty `'='`-free substrings of the verb
(`eqTokens`), so leading `'='` runs are skipped (verb `=A=B` sets `A`)
and consecutive `'='` act as one delimiter; the name is the first
token and the value the second â everything after the name only up to
the next `'='`, not to the end of the verb.  With two or more tokens
the variable is set in the current process with overwrite semantics
without forking (only the environment component of the state changes)
and the `setenv` result 0 is returned; with fewer than two tokens the
command fails with `-1`.  The equation covers every verb containing
`'='`: leading-run, inner-run, one-token and no-token shapes alike. -/
theorem c6_assignment (os : OS) (st : ShellState) (s : simple_command_t)
    (cmd : String) (hverb : s.verb = some cmd) (hmem : '=' ∈ cmd.data) :
    parse_simple os (some s) st =
      match eqTokens cmd.data with
      | n :: v :: _ =>
        (0, { st with env := envSet (String.mk n) (String.mk v) st.env })
      | _ => (-1, st) := by
  have hcd : ¬cmd = "cd" := by
    intro e; subst e; exact absurd hmem (by decide)
  have hexit : ¬(cmd = "exit" ∨ cmd = "quit") := by
    rintro (e | e) <;> subst e <;> exact absurd hmem (by decide)
  rcases h1 : strtok cmd.data with _ | nm
  · have ht : eqTokens cmd.data = [] := (strtok_tokens cmd.data).1 h1
    simp [parse_simple, hverb, hcd, hexit, hmem, h1, ht]
  · obtain ⟨nmt, nmr⟩ := nm
    have ht : eqTokens cmd.data = nmt :: eqTokens nmr :=
      (strtok_tokens cmd.data).2 nmt nmr h1
    rcases h2 : strtok nmr with _ | vl
    · have ht2 : eqTokens nmr = [] := (strtok_tokens nmr).1 h2
      simp [parse_simple, hverb, hcd, hexit, hmem, h1, h2, ht, ht2]
    · obtain ⟨vlt, vlr⟩ := vl
      have ht2 : eqTokens nmr = vlt :: eqTokens vlr :=
        (strtok_tokens nmr).2 vlt vlr h2
      simp [parse_simple, hverb, hcd, hexit, hmem, h1, h2, ht, ht2]

/-- C6 witness: the verb `=A=B` â a leading-delimiter case â sets `A`
to `B` and returns 0, by the amended theorem applied at that concrete
input with the token list evaluated by `decide`. -/
theorem c6_witness :
    parse_simple os0 (some asgSkip) st0
      = (0, { st0 with env := envSet (String.mk ['A']) (String.mk ['B']) st0.env }) := by
  rw [c6_assignment os0 st0 asgSkip "=A=B" rfl (by decide)]
  decide

/-- C6 counterexample: for the verb `A=B=C` the claim says the value is
everything after the first `'='`, i.e. `B=C`; the code sets `A` to `B`
(the set succeeds, returning 0), not to `B=C`. -/
theorem c6_counterexample :
    (parse_simple os0 (some asg6) st0).fst = 0
    ∧ envGet "A" (parse_simple os0 (some asg6) st0).snd.env = some "B"
    ∧ envGet "A" (parse_simple os0 (some asg6) st0).snd.env ≠ some "B=C" := by
  decide

/-- C7: the built-in `cd` with zero arguments returns success (0) and
does not touch the `chdir` trace; with two or more arguments it returns
failure (1) with the trace again unchanged — no directory change is
attempted; with exactly one argument it attempts the change (the path
is appended to the trace) and returns 0 iff the OS call succeeds. -/
theorem c7_cd_arguments (os : OS) (st : ShellState) (ps : List String)
    (i o e : Option String) (fl : Nat) :
    parse_simple os (some ⟨some "cd", ps, i, o, e, fl⟩) st =
      match ps with
      | [] => (0, st)
      | [d] => ((if os.chdir d then 0 else 1 : Int),
          { st with chdirCalls := st.chdirCalls ++ [d] })
      | _ :: _ :: _ => (1, st) := by
  rcases ps with _ | ⟨d, _ | ⟨d2, t⟩⟩
  · rfl
  · show ((if os.chdir d then (0 : Int) else 1), _) = _
    rfl
  · rfl

/-- C8: a SEQUENTIAL node evaluates the left sub-tree first (its value
is discarded; only its state effects remain, threaded into the right
evaluation), then evaluates the right sub-tree and returns the right
sub-tree's result unconditionally — the equation holds whatever the
left result was. -/
theorem c8_sequential (os : OS) (l r : command_t)
    (sc : Option simple_command_t) (st : ShellState) :
    parse_command os (.mk .OP_SEQUENTIAL l r sc) st
      = parse_command os r (parse_command os l st).snd := rfl

/-- C9: a COND_IF_NONZERO node evaluates the left sub-tree; if the left
result is nonzero it evaluates the right sub-tree (in the state the
left evaluation produced) and returns its result; if the left result is
0 the right sub-tree is never evaluated — the result `(0, ...)` does
not depend on `r` and the state carries only the left effects — and the
overall status is 0. -/
theorem c9_cond_if_nonzero (os : OS) (l r : command_t)
    (sc : Option simple_command_t) (st : ShellState) :
    parse_command os (.mk .OP_CONDITIONAL_NZERO l r sc) st
      = if (parse_command os l st).fst ≠ 0 then
          parse_command os r (parse_command os l st).snd
        else (0, (parse_command os l st).snd) := rfl

/-- C10: when a simple command has both an output and an error
redirection path, after `solve_redirection` the error descriptor refers
to the same open file description as the output descriptor — one shared
file offset — exactly when the two path strings are equal as strings
(the `strcmp` on line 84): the final `dup2(STDOUT_FILENO,
STDERR_FILENO)` aliases them.  When the strings differ — even if they
would name the same underlying file — the two descriptors keep the two
independent descriptions their separate `open` calls created. -/
theorem c10_same_path_aliases (s : simple_command_t) (st : FDState)
    (po pe : String) (hout : s.out = some po) (herr : s.err = some pe) :
    ((solve_redirection s st).fd2 = (solve_redirection s st).fd1) ↔ po = pe := by
  obtain ⟨v, ps, i, o, e, fl⟩ := s
  dsimp only at hout herr
  subst hout herr
  by_cases hpe : po = pe
  · subst hpe
    cases i <;> simp [solve_redirection, fdOpen]
  · cases i <;> simp [solve_redirection, fdOpen, hpe]

/-- C10 witness: a concrete command redirecting both output and error
to the path string `f` ends with the error descriptor equal to the
output descriptor, by the theorem applied at that input. -/
theorem c10_witness :
    (solve_redirection scSamePath fdSt0).fd2 = (solve_redirection scSamePath fdSt0).fd1 :=
  (c10_same_path_aliases scSamePath fdSt0 "f" "f" rfl rfl).mpr rfl
